import Mathlib

/-!
Shallow embedding of `Cursors_FIX.py`, a Windows cursor freeze-frame
monitor.  The program polls the active cursor handle, debounces change
detection with a 100 ms cooldown, and on a qualifying change performs a
two-phase cursor-scheme repair (`force_reload_cursors`).

Modelling choices:
* Cursor handles are natural numbers; Python's `None` becomes `Option.none`
  and Python falsiness of a handle (`if not h`) is the test `h = 0`.
* Monotonic time is a rational number of seconds; `cooldown_sec = 1/10`.
* The OS is an explicit environment record; `force_reload_cursors` returns
  its boolean outcome together with the list of OS calls it issued, so
  "best effort" properties of the call sequence can be stated.
* One iteration of the `while True` body (after the sleep) is the function
  `tick`; the return value of `force_reload_cursors`, which the Python code
  discards, is passed in as the parameter `repairRet`.
-/

namespace CursorsFix

/-- Windows constant `SPI_SETCURSORS` (line 5 of the source). -/
def SPI_SETCURSORS : Nat := 0x0057

/-- Windows constant `CURSOR_SHOWING` (line 6 of the source). -/
def CURSOR_SHOWING : Nat := 0x00000001

/-- Windows constant `IDC_ARROW` (line 7 of the source). -/
def IDC_ARROW : Nat := 32512

/-- The 13 system cursor role identifiers, in source order (lines 10-24). -/
def ALL_OCR_IDS : List Nat :=
  [32512, 32513, 32514, 32515, 32516, 32642, 32643, 32644, 32645, 32646,
   32648, 32649, 32650]

/-- Outcome of the `GetCursorInfo` OS call: the success flag of the call and
the `flags` / `hCursor` fields it filled in.  A NULL `hCursor` pointer is the
value 0 (the Python `ctypes.cast(...).value or 0` turns `None` into `0`). -/
structure CursorInfoResult where
  ok : Bool
  flags : Nat
  hCursor : Nat
  deriving DecidableEq

/-- Embedding of `get_cursor_handle` (source lines 44-55): `None` when the
query fails or the cursor is not in the SHOWING state, otherwise the handle
as an integer (0 when the OS handed back a NULL handle). -/
def get_cursor_handle (q : CursorInfoResult) : Option Nat :=
  if q.ok = false then none
  else if q.flags &&& CURSOR_SHOWING = 0 then none
  else some q.hCursor

/-- OS calls observable during `force_reload_cursors`, in issue order. -/
inductive OsCall where
  | loadCursor : OsCall
  | copyIcon : Nat → OsCall
  | setSystemCursor : Nat → Nat → OsCall
  | reload : OsCall
  deriving DecidableEq

/-- The OS environment seen by one `force_reload_cursors` run: the handle
`LoadCursorW` returns for the stock arrow (0 on failure), the handle
`CopyIcon` returns when invoked while processing a given role id (0 on
failure), and whether `SystemParametersInfoW(SPI_SETCURSORS, ...)`
succeeds.  `SetSystemCursor`'s return value is not part of the environment
because the source ignores it. -/
structure WinEnv where
  arrow : Nat
  copyIcon : Nat → Nat
  reloadOk : Bool

/-- The phase-1 "jolt" loop (source lines 70-73): for each role id, call
`CopyIcon`; when the copy handle is truthy, call `SetSystemCursor` with it.
Returns the list of OS calls issued, in order. -/
def joltCalls (env : WinEnv) : List Nat → List OsCall
  | [] => []
  | ocr :: rest =>
      let copy := env.copyIcon ocr
      (if copy = 0 then [OsCall.copyIcon ocr]
       else [OsCall.copyIcon ocr, OsCall.setSystemCursor copy ocr])
        ++ joltCalls env rest

/-- Embedding of `force_reload_cursors` (source lines 57-83): result boolean
paired with the trace of OS calls issued. -/
def force_reload_cursors (env : WinEnv) : Bool × List OsCall :=
  if env.arrow = 0 then (false, [OsCall.loadCursor])
  else
    let calls := OsCall.loadCursor :: (joltCalls env ALL_OCR_IDS
                  ++ [OsCall.reload])
    if env.reloadOk = false then (false, calls)
    else (true, calls)

/-- The loop's mutable state (source lines 89-90): `last_h` and
`cooldown_until` (seconds, monotonic clock). -/
structure LoopState where
  last_h : Option Nat
  cooldown_until : ℚ
  deriving DecidableEq

/-- `cooldown_sec = 0.10` seconds, i.e. 100 ms (source line 87). -/
def cooldown_sec : ℚ := 1 / 10

/-- The initial loop state: `last_h = None`, `cooldown_until = 0.0`. -/
def initState : LoopState := ⟨none, 0⟩

/-- One iteration of the body of `while True` (source lines 93-117), after
the sleep: given the current monotonic time `now`, the sampled handle `h`,
and the value `repairRet` that `force_reload_cursors` would return (the
source discards it), produce the next state and whether repair was invoked
this tick. -/
def tick (st : LoopState) (now : ℚ) (h : Option Nat) (repairRet : Bool) :
    LoopState × Bool :=
  match h with
  | none => (st, false)
  | some hv =>
      if hv = 0 then (st, false)
      else
        match st.last_h with
        | none => ({ st with last_h := some hv }, false)
        | some lh =>
            if hv ≠ lh then
              if st.cooldown_until ≤ now then
                ({ last_h := some hv,
                   cooldown_until := now + cooldown_sec }, true)
              else ({ st with last_h := some hv }, false)
            else ({ st with last_h := some hv }, false)

/-- A run of the loop over a list of tick inputs
`(now, sampled handle, repair outcome)`: final state paired with the number
of ticks on which repair was invoked. -/
def runFrom (st : LoopState) :
    List (ℚ × Option Nat × Bool) → LoopState × Nat
  | [] => (st, 0)
  | (now, h, r) :: rest =>
      let out := tick st now h r
      let res := runFrom out.1 rest
      (res.1, (if out.2 then 1 else 0) + res.2)

/-! ### Helper lemmas about single ticks -/

/-- A `None` sample leaves the tick a no-op (source line 98-99). -/
theorem tick_none (st : LoopState) (now : ℚ) (r : Bool) :
    tick st now none r = (st, false) := rfl

/-- A sampled handle of 0 is falsy in Python and also skips the tick. -/
theorem tick_zero (st : LoopState) (now : ℚ) (r : Bool) :
    tick st now (some 0) r = (st, false) := rfl

/-- First valid sample while uninitialized: record it, no repair. -/
theorem tick_first (st : LoopState) (now : ℚ) (hv : Nat) (r : Bool)
    (h0 : hv ≠ 0) (hN : st.last_h = none) :
    tick st now (some hv) r = ({ st with last_h := some hv }, false) := by
  obtain ⟨l, c⟩ := st
  simp only at hN
  subst hN
  simp [tick, h0]

/-- A sample equal to `last_h` is a complete no-op (the reassignment on
source line 117 writes back the same value). -/
theorem tick_same (st : LoopState) (now : ℚ) (a : Nat) (r : Bool)
    (h0 : a ≠ 0) (hL : st.last_h = some a) :
    tick st now (some a) r = (st, false) := by
  obtain ⟨l, c⟩ := st
  simp only at hL
  subst hL
  simp [tick, h0]

/-- A change observed at or past the cooldown deadline fires repair and
moves the deadline to `now + cooldown_sec`. -/
theorem tick_change_fire (st : LoopState) (now : ℚ) (hv lh : Nat) (r : Bool)
    (h0 : hv ≠ 0) (hL : st.last_h = some lh) (hne : hv ≠ lh)
    (hcd : st.cooldown_until ≤ now) :
    tick st now (some hv) r =
      ({ last_h := some hv, cooldown_until := now + cooldown_sec }, true) := by
  obtain ⟨l, c⟩ := st
  simp only at hL hcd
  subst hL
  simp [tick, h0, hne, hcd]

/-- A change observed strictly inside the cooldown window is absorbed:
`last_h` is still updated, the deadline is untouched, no repair. -/
theorem tick_change_absorb (st : LoopState) (now : ℚ) (hv lh : Nat)
    (r : Bool) (h0 : hv ≠ 0) (hL : st.last_h = some lh) (hne : hv ≠ lh)
    (hcd : ¬ st.cooldown_until ≤ now) :
    tick st now (some hv) r = ({ st with last_h := some hv }, false) := by
  obtain ⟨l, c⟩ := st
  simp only at hL hcd
  subst hL
  simp [tick, h0, hne, hcd]

/-- Exhaustive shape of a tick's effect on `last_h`: it is either kept or
replaced by a truthy sampled handle. -/
theorem tick_last_h_shape (st : LoopState) (now : ℚ) (h : Option Nat)
    (r : Bool) :
    (tick st now h r).1.last_h = st.last_h ∨
      ∃ hv, hv ≠ 0 ∧ h = some hv ∧ (tick st now h r).1.last_h = some hv := by
  match h with
  | none => exact Or.inl rfl
  | some hv =>
      by_cases h0 : hv = 0
      · subst h0
        exact Or.inl (by rw [tick_zero])
      · refine Or.inr ⟨hv, h0, rfl, ?_⟩
        match hL : st.last_h with
        | none => rw [tick_first st now hv r h0 hL]
        | some lh =>
            by_cases hne : hv = lh
            · subst hne
              rw [tick_same st now hv r h0 hL, hL]
            · by_cases hcd : st.cooldown_until ≤ now
              · rw [tick_change_fire st now hv lh r h0 hL hne hcd]
              · rw [tick_change_absorb st now hv lh r h0 hL hne hcd]

/-- Claim C10: `cooldown_until` is modified only on ticks in which repair is
actually invoked; every tick whose repair flag is `false` (no sample, falsy
sample, first sample, equal identity, or an absorbed change) leaves the
cooldown deadline exactly as it was, so an absorbed change never extends the
cooldown window. -/
theorem cooldown_changes_only_on_repair (st : LoopState) (now : ℚ)
    (h : Option Nat) (r : Bool) (hq : (tick st now h r).2 = false) :
    (tick st now h r).1.cooldown_until = st.cooldown_until := by
  match h with
  | none => rfl
  | some hv =>
      by_cases h0 : hv = 0
      · subst h0; rw [tick_zero]
      · match hL : st.last_h with
        | none => rw [tick_first st now hv r h0 hL]
        | some lh =>
            by_cases hne : hv = lh
            · subst hne; rw [tick_same st now hv r h0 hL]
            · by_cases hcd : st.cooldown_until ≤ now
              · rw [tick_change_fire st now hv lh r h0 hL hne hcd] at hq
                exact absurd hq (by simp)
              · rw [tick_change_absorb st now hv lh r h0 hL hne hcd]

/-! ### Helper lemmas about runs -/

/-- Unfolding a run one tick at a time. -/
theorem runFrom_cons (st : LoopState) (now : ℚ) (h : Option Nat) (r : Bool)
    (rest : List (ℚ × Option Nat × Bool)) :
    runFrom st ((now, h, r) :: rest) =
      ((runFrom (tick st now h r).1 rest).1,
       (if (tick st now h r).2 then 1 else 0)
         + (runFrom (tick st now h r).1 rest).2) := rfl

/-- The final state of a concatenated run factors through the middle state. -/
theorem runFrom_fst_append (xs ys : List (ℚ × Option Nat × Bool)) :
    ∀ st : LoopState,
      (runFrom st (xs ++ ys)).1 = (runFrom (runFrom st xs).1 ys).1 := by
  induction xs with
  | nil => intro st; rfl
  | cons x rest ih =>
      intro st
      obtain ⟨now, h, r⟩ := x
      simp only [List.cons_append, runFrom_cons]
      exact ih (tick st now h r).1

/-- Any predicate preserved by single ticks is preserved by whole runs. -/
theorem runFrom_preserves (P : LoopState → Prop)
    (hP : ∀ st now h r, P st → P (tick st now h r).1) :
    ∀ (xs : List (ℚ × Option Nat × Bool)) (st : LoopState),
      P st → P (runFrom st xs).1 := by
  intro xs
  induction xs with
  | nil => intro st hst; exact hst
  | cons x rest ih =>
      intro st hst
      obtain ⟨now, h, r⟩ := x
      simp only [runFrom_cons]
      exact ih _ (hP st now h r hst)

/-- A stretch of `None` samples contributes nothing to a run. -/
theorem runFrom_nones (mids : List (ℚ × Bool)) :
    ∀ (st : LoopState) (rest : List (ℚ × Option Nat × Bool)),
      runFrom st ((mids.map fun p => (p.1, (none : Option Nat), p.2)) ++ rest)
        = runFrom st rest := by
  induction mids with
  | nil => intro st rest; rfl
  | cons x ms ih =>
      intro st rest
      simp only [List.map_cons, List.cons_append, runFrom_cons, tick_none]
      rw [ih st rest]
      simp

/-! ### Helper lemmas about `force_reload_cursors` -/

/-- The jolt loop issues a `CopyIcon` call for every role id it is given,
whatever the copy outcomes are. -/
theorem joltCalls_copyIcon_mem (env : WinEnv) :
    ∀ (ids : List Nat) (ocr : Nat), ocr ∈ ids →
      OsCall.copyIcon ocr ∈ joltCalls env ids := by
  intro ids
  induction ids with
  | nil => intro ocr h; cases h
  | cons x rest ih =>
      intro ocr h
      rw [List.mem_cons] at h
      simp only [joltCalls]
      rcases h with rfl | h
      · by_cases hc : env.copyIcon ocr = 0 <;> simp [hc]
      · exact List.mem_append_right _ (ih ocr h)

/-- Trace of `force_reload_cursors` when the arrow handle is truthy. -/
theorem force_reload_trace (env : WinEnv) (ha : env.arrow ≠ 0) :
    (force_reload_cursors env).2 =
      OsCall.loadCursor :: (joltCalls env ALL_OCR_IDS ++ [OsCall.reload]) := by
  unfold force_reload_cursors
  rw [if_neg ha]
  by_cases hr : env.reloadOk = false <;> simp [hr]

/-! ### The claims -/

/-- Claim C4: `force_reload_cursors` iterates over all 13 cursor-role ids
without short-circuiting — every role gets its `CopyIcon` attempt no matter
which copies fail — the reload broadcast is still issued afterwards, and the
function returns `true` whenever the arrow handle was obtained and the
reload succeeded. -/
theorem force_reload_best_effort (env : WinEnv) (ha : env.arrow ≠ 0) :
    ALL_OCR_IDS.length = 13 ∧
      (∀ ocr ∈ ALL_OCR_IDS,
        OsCall.copyIcon ocr ∈ (force_reload_cursors env).2) ∧
      OsCall.reload ∈ (force_reload_cursors env).2 ∧
      (env.reloadOk = true → (force_reload_cursors env).1 = true) := by
  refine ⟨by decide, ?_, ?_, ?_⟩
  · intro ocr hocr
    rw [force_reload_trace env ha]
    exact List.mem_cons_of_mem _
      (List.mem_append_left _ (joltCalls_copyIcon_mem env ALL_OCR_IDS ocr hocr))
  · rw [force_reload_trace env ha]
    simp
  · intro hr
    unfold force_reload_cursors
    rw [if_neg ha]
    simp [hr]

/-- Witness for C4: with a truthy arrow handle, every copy failing, and a
successful reload, all roles are still attempted, the reload is issued, and
the result is `true`. -/
theorem force_reload_best_effort_witness :
    OsCall.copyIcon 32650 ∈ (force_reload_cursors ⟨1, fun _ => 0, true⟩).2 ∧
      OsCall.reload ∈ (force_reload_cursors ⟨1, fun _ => 0, true⟩).2 ∧
      (force_reload_cursors ⟨1, fun _ => 0, true⟩).1 = true :=
  ⟨(force_reload_best_effort ⟨1, fun _ => 0, true⟩ (by decide)).2.1 32650
      (by decide),
   (force_reload_best_effort ⟨1, fun _ => 0, true⟩ (by decide)).2.2.1,
   (force_reload_best_effort ⟨1, fun _ => 0, true⟩ (by decide)).2.2.2 rfl⟩

/-- Claim C5: `force_reload_cursors` returns `false` exactly when the arrow
handle is falsy or the scheme reload fails; in every other case it returns
`true`. -/
theorem force_reload_false_iff (env : WinEnv) :
    (force_reload_cursors env).1 = false ↔
      env.arrow = 0 ∨ env.reloadOk = false := by
  unfold force_reload_cursors
  by_cases ha : env.arrow = 0
  · simp [ha]
  · by_cases hr : env.reloadOk = false
    · simp [ha, hr]
    · simp [ha, hr]

/-- Claim C1: in the TRACKING state, a tick that samples a (truthy) identity
different from `last_h` invokes repair precisely when `now` is at or past
the cooldown deadline; consequently, after a change fires repair at `t₁`, a
further change strictly within `cooldown_sec` of `t₁` does not fire repair,
and a further change at or after `t₁ + cooldown_sec` does. -/
theorem tracking_change_repair_iff_cooldown :
    (∀ (st : LoopState) (lh hv : Nat) (now : ℚ) (r : Bool),
      st.last_h = some lh → hv ≠ 0 → hv ≠ lh →
      ((tick st now (some hv) r).2 = true ↔ st.cooldown_until ≤ now)) ∧
    (∀ (st : LoopState) (lh hv hv₂ : Nat) (t₁ t₂ : ℚ) (r₁ r₂ : Bool),
      st.last_h = some lh → hv ≠ 0 → hv ≠ lh → hv₂ ≠ 0 → hv₂ ≠ hv →
      st.cooldown_until ≤ t₁ →
      ((t₂ < t₁ + cooldown_sec →
          (tick (tick st t₁ (some hv) r₁).1 t₂ (some hv₂) r₂).2 = false) ∧
       (t₁ + cooldown_sec ≤ t₂ →
          (tick (tick st t₁ (some hv) r₁).1 t₂ (some hv₂) r₂).2 = true))) := by
  constructor
  · intro st lh hv now r hL h0 hne
    by_cases hcd : st.cooldown_until ≤ now
    · rw [tick_change_fire st now hv lh r h0 hL hne hcd]
      simp [hcd]
    · rw [tick_change_absorb st now hv lh r h0 hL hne hcd]
      simp [hcd]
  · intro st lh hv hv₂ t₁ t₂ r₁ r₂ hL h0 hne h0₂ hne₂ hcd
    have hstep : (tick st t₁ (some hv) r₁).1 =
        ({ last_h := some hv, cooldown_until := t₁ + cooldown_sec } :
          LoopState) := by
      rw [tick_change_fire st t₁ hv lh r₁ h0 hL hne hcd]
    rw [hstep]
    constructor
    · intro hlt
      rw [tick_change_absorb _ t₂ hv₂ hv r₂ h0₂ rfl hne₂ (not_le.mpr hlt)]
    · intro hge
      rw [tick_change_fire _ t₂ hv₂ hv r₂ h0₂ rfl hne₂ hge]

/-- Witness for C1: with `last_h = 5`, deadline 0, a change to 7 at time 1
fires repair; the follow-up change to 9 at time 21/20 (inside the 100 ms
window) does not, while at time 2 (past the window) it would. -/
theorem tracking_change_repair_iff_cooldown_witness :
    ((tick ⟨some 5, 0⟩ 1 (some 7) true).2 = true ↔
        (⟨some 5, 0⟩ : LoopState).cooldown_until ≤ 1) ∧
      ((21 / 20 < 1 + cooldown_sec →
          (tick (tick ⟨some 5, 0⟩ 1 (some 7) true).1 (21 / 20) (some 9)
              false).2 = false) ∧
       (1 + cooldown_sec ≤ 21 / 20 →
          (tick (tick ⟨some 5, 0⟩ 1 (some 7) true).1 (21 / 20) (some 9)
              false).2 = true)) :=
  ⟨tracking_change_repair_iff_cooldown.1 ⟨some 5, 0⟩ 5 7 1 true rfl
      (by decide) (by decide),
   tracking_change_repair_iff_cooldown.2 ⟨some 5, 0⟩ 5 7 9 1 (21 / 20) true
      false rfl (by decide) (by decide) (by decide) (by decide)
      (by norm_num)⟩

/-- Claim C2: whenever a tick invokes repair, the resulting state's
`cooldown_until` is `now + cooldown_sec` (100 ms past the tick's time), and
the tick's outcome is independent of the boolean `force_reload_cursors`
returned — the source discards that value. -/
theorem repair_tick_sets_cooldown_deadline :
    (∀ (st : LoopState) (now : ℚ) (h : Option Nat) (r : Bool),
      (tick st now h r).2 = true →
      (tick st now h r).1.cooldown_until = now + cooldown_sec) ∧
    (∀ (st : LoopState) (now : ℚ) (h : Option Nat),
      tick st now h true = tick st now h false) := by
  constructor
  · intro st now h r hq
    match h with
    | none => rw [tick_none] at hq; exact absurd hq (by simp)
    | some hv =>
        by_cases h0 : hv = 0
        · subst h0
          rw [tick_zero] at hq
          exact absurd hq (by simp)
        · match hL : st.last_h with
          | none =>
              rw [tick_first st now hv r h0 hL] at hq
              exact absurd hq (by simp)
          | some lh =>
              by_cases hne : hv = lh
              · subst hne
                rw [tick_same st now hv r h0 hL] at hq
                exact absurd hq (by simp)
              · by_cases hcd : st.cooldown_until ≤ now
                · rw [tick_change_fire st now hv lh r h0 hL hne hcd]
                · rw [tick_change_absorb st now hv lh r h0 hL hne hcd] at hq
                  exact absurd hq (by simp)
  · intro st now h
    rfl

/-- Witness for C2: the change 5 → 7 at time 1 from an expired deadline
fires repair and sets the deadline to `1 + cooldown_sec`. -/
theorem repair_tick_sets_cooldown_deadline_witness :
    (tick ⟨some 5, 0⟩ 1 (some 7) false).1.cooldown_until = 1 + cooldown_sec :=
  repair_tick_sets_cooldown_deadline.1 ⟨some 5, 0⟩ 1 (some 7) false
    (by norm_num [tick])

/-- Claim C3: from the UNINITIALIZED state (`last_h = None`), a tick that
samples a truthy identity records it as `last_h` and does not invoke
repair, regardless of the identity's (nonzero) value; a sampled 0 is falsy
and is treated as no sample at all (see the C9 theorem). -/
theorem first_sample_records_without_repair (st : LoopState) (now : ℚ)
    (hv : Nat) (r : Bool) (hN : st.last_h = none) (h0 : hv ≠ 0) :
    (tick st now (some hv) r).1.last_h = some hv ∧
      (tick st now (some hv) r).2 = false := by
  rw [tick_first st now hv r h0 hN]
  exact ⟨rfl, rfl⟩

/-- Witness for C3: the very first sample, 5, is recorded without repair. -/
theorem first_sample_records_without_repair_witness :
    (tick initState 0 (some 5) true).1.last_h = some 5 ∧
      (tick initState 0 (some 5) true).2 = false :=
  first_sample_records_without_repair initState 0 5 true rfl (by decide)

/-- Claim C6: once `last_h` holds a value it is never reset to `None`:
extending any run of the loop that has left the UNINITIALIZED state by any
further ticks keeps `last_h` set. -/
theorem last_h_never_reset (xs ys : List (ℚ × Option Nat × Bool))
    (hxs : (runFrom initState xs).1.last_h ≠ none) :
    (runFrom initState (xs ++ ys)).1.last_h ≠ none := by
  rw [runFrom_fst_append]
  exact runFrom_preserves (fun st => st.last_h ≠ none)
    (fun st now h r hst => by
      rcases tick_last_h_shape st now h r with hkeep | ⟨hv, _, _, hsh⟩
      · rw [hkeep]; exact hst
      · rw [hsh]; simp)
    ys (runFrom initState xs).1 hxs

/-- Witness for C6: after one tick recording handle 5, a later `None` tick
leaves `last_h` set. -/
theorem last_h_never_reset_witness :
    (runFrom initState
        ([((0 : ℚ), some 5, true)] ++ [((1 : ℚ), none, false)])).1.last_h ≠
      none :=
  last_h_never_reset [((0 : ℚ), some 5, true)] [((1 : ℚ), none, false)]
    (by decide)

/-- Claim C7: a tick whose sample is `None` changes nothing — the state is
returned untouched and repair is not invoked — and hence a stretch of
`None` samples between two equal-identity samples leaves `last_h` at that
identity and performs zero repairs. -/
theorem none_sample_frame_property :
    (∀ (st : LoopState) (now : ℚ) (r : Bool),
      tick st now none r = (st, false)) ∧
    (∀ (st : LoopState) (a : Nat) (t₀ t₁ : ℚ) (r₀ r₁ : Bool)
        (mids : List (ℚ × Bool)), a ≠ 0 → st.last_h = some a →
      runFrom st (((t₀, some a, r₀) ::
          mids.map fun p => (p.1, (none : Option Nat), p.2))
        ++ [(t₁, some a, r₁)]) = (st, 0)) := by
  constructor
  · intro st now r
    rfl
  · intro st a t₀ t₁ r₀ r₁ mids h0 hL
    have h₀ := tick_same st t₀ a r₀ h0 hL
    have h₁ := tick_same st t₁ a r₁ h0 hL
    simp only [List.cons_append, runFrom_cons, h₀, runFrom_nones]
    simp [runFrom_cons, h₁, runFrom]

/-- Witness for C7: samples `[4, None, 4]` starting from `last_h = 4` leave
the state unchanged with zero repairs. -/
theorem none_sample_frame_property_witness :
    runFrom ⟨some 4, 0⟩ ((((0 : ℚ), some 4, true) ::
        [((1 / 2 : ℚ), true)].map fun p => (p.1, (none : Option Nat), p.2))
      ++ [((1 : ℚ), some 4, false)]) = (⟨some 4, 0⟩, 0) :=
  none_sample_frame_property.2 ⟨some 4, 0⟩ 4 0 1 true false
    [((1 / 2 : ℚ), true)] (by decide) rfl

/-- Claim C8: in the TRACKING state, a tick sampling a truthy identity
different from `last_h` ends with `last_h` updated to the new identity in
both cooldown branches — whether the change fired a repair or was absorbed
within the cooldown window. -/
theorem change_updates_last_h_both_branches (st : LoopState) (lh hv : Nat)
    (now : ℚ) (r : Bool) (hL : st.last_h = some lh) (h0 : hv ≠ 0)
    (hne : hv ≠ lh) :
    (tick st now (some hv) r).1.last_h = some hv := by
  by_cases hcd : st.cooldown_until ≤ now
  · rw [tick_change_fire st now hv lh r h0 hL hne hcd]
  · rw [tick_change_absorb st now hv lh r h0 hL hne hcd]

/-- Witness for C8: an absorbed change (deadline 2, time 1) still updates
`last_h` from 5 to 7. -/
theorem change_updates_last_h_both_branches_witness :
    (tick ⟨some 5, 2⟩ 1 (some 7) true).1.last_h = some 7 :=
  change_updates_last_h_both_branches ⟨some 5, 2⟩ 5 7 1 true rfl (by decide)
    (by decide)

/-- Claim C9: a successful cursor query that reports SHOWING with a NULL
handle makes `get_cursor_handle` return `some 0`, not `None`; the loop's
falsiness test treats that 0 exactly like `None` (the tick is skipped with
no state mutation); hence in every reachable loop state `last_h` is `None`
or a nonzero handle — it can never be `some 0`. -/
theorem zero_handle_treated_as_none :
    (∀ q : CursorInfoResult,
      q.ok = true → q.flags &&& CURSOR_SHOWING ≠ 0 → q.hCursor = 0 →
      get_cursor_handle q = some 0) ∧
    (∀ (st : LoopState) (now : ℚ) (r : Bool),
      tick st now (some 0) r = tick st now none r ∧
      tick st now (some 0) r = (st, false)) ∧
    (∀ (xs : List (ℚ × Option Nat × Bool)) (n : Nat),
      (runFrom initState xs).1.last_h = some n → n ≠ 0) := by
  refine ⟨?_, ?_, ?_⟩
  · intro q hok hflags h0
    simp [get_cursor_handle, hok, h0, hflags]
  · intro st now r
    exact ⟨rfl, rfl⟩
  · intro xs n hn
    have hinv : ∀ m : Nat, (runFrom initState xs).1.last_h = some m →
        m ≠ 0 := by
      refine runFrom_preserves
        (fun st => ∀ m : Nat, st.last_h = some m → m ≠ 0) ?_ xs initState ?_
      · intro st now h r hst m hm
        rcases tick_last_h_shape st now h r with hkeep | ⟨hv, h0, _, hsh⟩
        · rw [hkeep] at hm
          exact hst m hm
        · rw [hsh] at hm
          obtain rfl := Option.some.inj hm
          exact h0
      · intro m hm
        simp [initState] at hm
    exact hinv n hn

/-- Witness for C9: a showing cursor with NULL handle samples as `some 0`;
a `some 0` tick is a no-op; after recording handle 5, 5 is nonzero. -/
theorem zero_handle_treated_as_none_witness :
    get_cursor_handle ⟨true, 1, 0⟩ = some 0 ∧
      tick initState 3 (some 0) true = (initState, false) ∧
      (5 : Nat) ≠ 0 :=
  ⟨zero_handle_treated_as_none.1 ⟨true, 1, 0⟩ rfl (by decide) rfl,
   (zero_handle_treated_as_none.2.1 initState 3 true).2,
   zero_handle_treated_as_none.2.2 [((0 : ℚ), some 5, true)] 5 (by decide)⟩

/-- Witness for C10: an absorbed change (deadline 2, time 1, no repair)
leaves the cooldown deadline at 2. -/
theorem cooldown_changes_only_on_repair_witness :
    (tick ⟨some 5, 2⟩ 1 (some 7) true).1.cooldown_until = (2 : ℚ) :=
  cooldown_changes_only_on_repair ⟨some 5, 2⟩ 1 (some 7) true
    (by norm_num [tick])

end CursorsFix
